import Mathlib

/-!
Shallow embedding of the two Spack package recipes in this repository:
`spack/h/hdf5/package.py` (class `Hdf5`) and `spack/n/nco/package.py`
(class `Nco`).  Only the non-declarative logic is embedded: the
flag-adjustment hook `Hdf5.flag_handler`, the `fortran_check` prerequisite
check, the install-verification routine `Hdf5._check_install`, the smoke
test sequencing (`Hdf5._test_check_versions`, `Hdf5._test_example`,
`Hdf5.test`), and `Nco.configure_args`.

Machine effects are made explicit: raised Python exceptions become
`Except` values, printed diagnostics become an accumulated list of printed
strings, and the existence of the scoped temporary directory becomes a
Boolean field of the result.  Calls into external tools (the C compiler,
the linker, the compiled probe binary) are oracles supplied as input,
since their behaviour is outside the fragment.
-/

namespace Registry

/-- A Spack version: a dotted list of numeric components
(e.g. `1.10.7` is `[1, 10, 7]`).  Branch-named versions of the recipe
(`develop` etc.) are outside the claims and not modelled. -/
structure Version where
  components : List Nat
deriving DecidableEq, Repr

/-- `Version.up_to(n)` in Spack: the version truncated to its first `n`
components. -/
def Version.upTo (v : Version) (n : Nat) : Version :=
  ⟨v.components.take n⟩

/-- Dotted rendering of a component list, as Python `str(Version)` produces:
components joined by a dot. -/
def versionStr : List Nat → String
  | [] => ""
  | [a] => Nat.repr a
  | a :: b :: rest => Nat.repr a ++ "." ++ versionStr (b :: rest)

/-- `str(v)` for a `Version`. -/
def Version.str (v : Version) : String :=
  versionStr v.components

/-- Numeric lexicographic comparison of component lists; a strict prefix is
smaller.  `versionLE a b` is `a <= b`. -/
def versionLE : List Nat → List Nat → Bool
  | [], _ => true
  | _ :: _, [] => false
  | a :: as, b :: bs =>
    if a < b then true else if b < a then false else versionLE as bs

/-- Spack range membership for an upper-bounded range `@:t` (as in
`spec.satisfies('@:1.8.12')`): the version is at most `t`, where versions
extending `t` with further components (e.g. `1.8.12.1` for `t = 1.8.12`)
still lie inside the range endpoint. -/
def satisfiesUpTo (v : Version) (t : List Nat) : Bool :=
  versionLE v.components t || t.isPrefixOf v.components

/-- The compiler object of the build, as the recipe consumes it: its Spack
name (`spec.compiler.name`), its per-language position-independent-code
flags, and the path of its Fortran compiler (`compiler.fc`, `none` when no
Fortran compiler is configured). -/
structure Compiler where
  name : String
  cc_pic_flag : String
  cxx_pic_flag : String
  fc_pic_flag : String
  fc : Option String
deriving DecidableEq, Repr

/-- Python truthiness of `compiler.fc` negated: `not self.compiler.fc` is
true when the field is `None` or the empty string. -/
def fcMissing : Option String → Bool
  | none => true
  | some s => s.isEmpty

/-- The resolved BuildContext the hooks read: the concretized version, the
Boolean variants the embedded code consults, and the compiler identity.
Created once per build and passed read-only. -/
structure BuildContext where
  version : Version
  shared : Bool
  cxx : Bool
  fortran : Bool
  mpi : Bool
  compiler : Compiler
deriving DecidableEq, Repr

/-- `Hdf5.flag_handler(name, flags)` from `spack/h/hdf5/package.py`
(lines 169-200).  Builds a fresh `cmake_flags` list according to the flag
category `name`:

* `cflags`: `-Wno-implicit-function-declaration` for the gcc/clang/
  apple-clang families, and the C PIC flag when
  `spec.satisfies('@:1.8.12~shared')`;
* `cxxflags`: the C++ PIC flag when `spec.satisfies('@:1.8.12+cxx~shared')`;
* `fflags`: `-ef` for `%cce+fortran`, and the Fortran PIC flag when
  `spec.satisfies('@:1.8.12+fortran~shared')`;
* `ldlibs`: the Fujitsu Fortran runtime libraries for `+fortran %fj`.

Returns the triple `(flags, None, cmake_flags or None)`: the input flag
list unchanged, no environment-injected flags, and the build-system flags
(`None` standing for an empty accumulation). -/
def flag_handler (ctx : BuildContext) (name : String) (flags : List String) :
    List String × Option (List String) × Option (List String) :=
  let spec := ctx
  let cmake_flags : List String :=
    if name = "cflags" then
      (if spec.compiler.name = "gcc" ∨ spec.compiler.name = "clang" ∨
          spec.compiler.name = "apple-clang" then
        ["-Wno-implicit-function-declaration"]
      else []) ++
      (if satisfiesUpTo spec.version [1, 8, 12] ∧ spec.shared = false then
        [spec.compiler.cc_pic_flag]
      else [])
    else if name = "cxxflags" then
      if satisfiesUpTo spec.version [1, 8, 12] ∧ spec.cxx = true ∧
          spec.shared = false then
        [spec.compiler.cxx_pic_flag]
      else []
    else if name = "fflags" then
      (if spec.compiler.name = "cce" ∧ spec.fortran = true then
        ["-ef"]
      else []) ++
      (if satisfiesUpTo spec.version [1, 8, 12] ∧ spec.fortran = true ∧
          spec.shared = false then
        [spec.compiler.fc_pic_flag]
      else [])
    else if name = "ldlibs" then
      if spec.fortran = true ∧ spec.compiler.name = "fj" then
        ["-lfj90i", "-lfj90f", "-lfjsrcinfo", "-lelf"]
      else []
    else []
  (flags, none, if cmake_flags = [] then none else some cmake_flags)

/-- The build-system flag list produced by a `flag_handler` call: its third
component, with `None` read back as the empty list. -/
def cmakeFlagsOf (ctx : BuildContext) (name : String) (flags : List String) :
    List String :=
  ((flag_handler ctx name flags).2.2).getD []

/-- `Hdf5.fortran_check` (lines 301-305): raises
`RuntimeError('cannot build a Fortran variant without a Fortran compiler')`
when the `fortran` variant is enabled but `self.compiler.fc` is falsy. -/
def fortran_check (ctx : BuildContext) : Except String Unit :=
  if ctx.fortran = true ∧ fcMissing ctx.compiler.fc = true then
    Except.error "cannot build a Fortran variant without a Fortran compiler"
  else
    Except.ok ()

/-! ## Install Verification (`Hdf5._check_install`, lines 433-481)

The routine writes a fixed C probe source, compiles it, links it against
the installed library, runs it, and compares the captured output with an
expected string built from the requested version.  The compiler, linker
and probe binary are external processes; their behaviour is an oracle
(`CheckEnv`).  A raised `ProcessError` from `cc(...)` or a raised
`RuntimeError` from the mismatch branch is an `Except.error`; the
`try/except ProcessError` around the probe execution is the `Option` on
`runOutput`.  `shutil.rmtree(checkdir)` stands at function level AFTER the
`with working_dir(checkdir, create=True)` block, so it only executes when
control leaves the block normally. -/

/-- Oracle for the external steps of `_check_install`: whether the
compile-only invocation and the link invocation of `cc` succeed (raise
`ProcessError` otherwise), and the probe run (`none` when execution raises
`ProcessError`, `some out` for captured standard output `out`). -/
structure CheckEnv where
  ctx : BuildContext
  compileOk : Bool
  linkOk : Bool
  runOutput : Option String
deriving DecidableEq, Repr

/-- An exception escaping `_check_install`: a `ProcessError` from a
compiler invocation, or the `RuntimeError` the routine raises itself. -/
inductive CheckError where
  | processError
  | runtimeError (msg : String)
deriving DecidableEq, Repr

instance {ε α : Type} [DecidableEq ε] [DecidableEq α] :
    DecidableEq (Except ε α) := fun x y =>
  match x, y with
  | Except.ok a, Except.ok b =>
    if h : a = b then isTrue (by rw [h]) else isFalse (by simp [h])
  | Except.ok _, Except.error _ => isFalse (by simp)
  | Except.error _, Except.ok _ => isFalse (by simp)
  | Except.error e, Except.error e' =>
    if h : e = e' then isTrue (by rw [h]) else isFalse (by simp [h])

/-- The observable outcome of `_check_install`: the lines printed, whether
the routine returned normally (`Except.ok`) or an exception escaped, and
whether the scoped temporary directory `spack-check` still exists when
control returns to the caller. -/
structure CheckResult where
  printed : List String
  result : Except CheckError Unit
  checkdirExists : Bool
deriving DecidableEq, Repr

/-- The expected probe output (lines 452-454):
`"HDF5 version {version} {version}\n".format(version=str(spec.version.up_to(3)))`. -/
def expectedOutput (v : Version) : String :=
  "HDF5 version " ++ (v.upTo 3).str ++ " " ++ (v.upTo 3).str ++ "\n"

/-- A row of 80 dashes, as `print('-' * 80)` produces. -/
def dashes : String :=
  String.mk (List.replicate 80 '-')

/-- `Hdf5._check_install` (lines 433-481).  Inside the
`with working_dir("spack-check", create=True)` block: compile (`cc -c`)
and link (`cc -o`), either raising `ProcessError` on failure; run the
probe with `output = check(output=str)`, replacing a raised `ProcessError`
by `output = ""`; compare `output == expected`; on mismatch print both
strings and raise `RuntimeError("HDF5 install check failed")`.  The
trailing `shutil.rmtree(checkdir)` runs only after a normal exit from the
block, so an escaping exception leaves the directory in place. -/
def _check_install (env : CheckEnv) : CheckResult :=
  let printed0 := ["Checking HDF5 installation..."]
  if env.compileOk = false then
    { printed := printed0, result := Except.error CheckError.processError,
      checkdirExists := true }
  else if env.linkOk = false then
    { printed := printed0, result := Except.error CheckError.processError,
      checkdirExists := true }
  else
    let output := env.runOutput.getD ""
    let expected := expectedOutput env.ctx.version
    let success := output = expected
    if success then
      { printed := printed0, result := Except.ok (), checkdirExists := false }
    else
      { printed := printed0 ++
          ["Produced output does not match expected output.",
           "Expected output:", dashes, expected, dashes,
           "Produced output:", dashes, output, dashes],
        result := Except.error (CheckError.runtimeError "HDF5 install check failed"),
        checkdirExists := true }

/-! ## Smoke Test Runner (`Hdf5._test_check_versions`, `Hdf5._test_example`,
`Hdf5.test`, lines 483-533)

The checks call `self.run_test(exe, options, expected, installed=True,
purpose=..., skip_missing=True, ...)`.  `run_test` belongs to the external
Spack test harness and is not part of this repository fragment. -/

/-- Outcome of one smoke-test check. -/
inductive TestOutcome where
  | passed
  | failed
  | skipped
deriving DecidableEq, Repr

/-- Oracle for the installed tree the smoke tests probe: which executables
exist under the installation prefix, and whether a given executable's
invocation produces the expected output. -/
structure TestEnv where
  installedExes : List String
  checkPasses : String → Bool

/-- Modelled from the spec: `PackageBase.run_test` (the external Spack
test harness) is not under `src/`.  Per the spec, a check whose target
executable is absent yields a "skipped" outcome rather than a raised
error, and an individual check's failure is recorded without aborting the
run, so the call always returns an outcome and never raises. -/
def run_test (env : TestEnv) (exe : String) (_option : String)
    (_expected : String) : TestOutcome :=
  if exe ∈ env.installedExes then
    if env.checkPasses exe then TestOutcome.passed else TestOutcome.failed
  else
    TestOutcome.skipped

/-- The executables version-checked by `_test_check_versions` (lines 487-490). -/
def hdf5TestExes : List String :=
  ["h5copy", "h5diff", "h5dump", "h5format_convert", "h5ls",
   "h5mkgrp", "h5repack", "h5stat", "h5unjam"]

/-- The executables for which the short `-V` option is used (line 491). -/
def use_short_opt : List String :=
  ["h52gif", "h5repart", "h5unjam"]

/-- The option passed for one executable (line 495):
`'-V' if exe in use_short_opt else '--version'`. -/
def versionOption (exe : String) : String :=
  if exe ∈ use_short_opt then "-V" else "--version"

/-- `'Version {0}'.format(self.spec.version)` (line 485). -/
def specVersStr (v : Version) : String :=
  "Version " ++ v.str

/-- `Hdf5._test_check_versions` (lines 483-497): one `run_test` call per
executable in `exes`, in order. -/
def _test_check_versions (env : TestEnv) (v : Version) : List TestOutcome :=
  hdf5TestExes.map (fun exe => run_test env exe (versionOption exe) (specVersStr v))

/-- `Hdf5._test_example` (lines 499-521): three `run_test` calls
(`h5dump`, `h5copy`, `h5diff`), each with `skip_missing=True`. -/
def _test_example (env : TestEnv) : List TestOutcome :=
  [run_test env "h5dump" "spack.h5" "dump.out",
   run_test env "h5copy" "-i" "",
   run_test env "h5diff" "spack.h5" ""]

/-- `Hdf5.test` (lines 523-533): runs the version checks, then the example
sequence, then `_check_install`. -/
def Hdf5_test (env : TestEnv) (v : Version) (cenv : CheckEnv) :
    List TestOutcome × CheckResult :=
  (_test_check_versions env v ++ _test_example env, _check_install cenv)

/-! ## `Nco.configure_args` (`spack/n/nco/package.py`, lines 54-56) -/

/-- `Nco.configure_args`:
`['--{0}-doc'.format('enable' if '+doc' in spec else 'disable')]`.  The
only spec ingredient read is the `doc` variant. -/
def Nco_configure_args (doc : Bool) : List String :=
  ["--" ++ (if doc then "enable" else "disable") ++ "-doc"]

/-! ## Claims -/

/-- C10: `Nco.configure_args` always returns a list of exactly one
argument: `--enable-doc` when the `doc` variant is enabled and
`--disable-doc` when it is disabled, for every spec. -/
theorem nco_configure_args_spec :
    ∀ doc : Bool,
      (Nco_configure_args doc).length = 1 ∧
      Nco_configure_args doc =
        [if doc then "--enable-doc" else "--disable-doc"] := by
  intro doc
  cases doc <;> exact ⟨rfl, rfl⟩

/-- C8: `Hdf5.fortran_check` raises the fatal
`RuntimeError('cannot build a Fortran variant without a Fortran compiler')`
exactly when the `fortran` variant is enabled and no Fortran compiler is
available; otherwise it raises nothing. -/
theorem fortran_check_spec :
    ∀ ctx : BuildContext,
      (fortran_check ctx =
          Except.error
            "cannot build a Fortran variant without a Fortran compiler" ↔
        ctx.fortran = true ∧ fcMissing ctx.compiler.fc = true) ∧
      (fortran_check ctx = Except.ok () ↔
        ¬(ctx.fortran = true ∧ fcMissing ctx.compiler.fc = true)) := by
  intro ctx
  unfold fortran_check
  split_ifs with h <;> simp [h]

/-- C7: `Hdf5.flag_handler` is a pure function of the flag category name,
the input flag list and the BuildContext: two calls with identical inputs
return identical results, and the input flag list comes back unchanged in
the returned triple (the appended flags accumulate in a fresh list, so the
inputs are not mutated). -/
theorem flag_handler_pure :
    ∀ (ctx : BuildContext) (name : String) (flags : List String),
      flag_handler ctx name flags = flag_handler ctx name flags ∧
      (flag_handler ctx name flags).1 = flags := by
  intro ctx name flags
  exact ⟨rfl, rfl⟩

/-- C4: the expected string of Install Verification is exactly
`"HDF5 version <V>.<v>.<p> <V>.<v>.<p>\n"` built from the requested
version triplet; for version `1.10.7` it is exactly
`"HDF5 version 1.10.7 1.10.7\n"`. -/
theorem expected_output_spec :
    (∀ a b c rest, expectedOutput ⟨a :: b :: c :: rest⟩ =
      "HDF5 version " ++
        (Nat.repr a ++ "." ++ Nat.repr b ++ "." ++ Nat.repr c) ++ " " ++
        (Nat.repr a ++ "." ++ Nat.repr b ++ "." ++ Nat.repr c) ++ "\n") ∧
    expectedOutput ⟨[1, 10, 7]⟩ = "HDF5 version 1.10.7 1.10.7\n" := by
  constructor
  · intro a b c rest
    simp [expectedOutput, Version.upTo, Version.str, versionStr,
      List.take_succ_cons, String.append_assoc]
  · rfl

/-- The literal flags `flag_handler` can append that are not PIC flags:
the diagnostic-suppression flag, the Cray lowercase-module-name flag, and
the Fujitsu Fortran runtime libraries. -/
def nonPicLiterals : List String :=
  ["-Wno-implicit-function-declaration", "-ef",
   "-lfj90i", "-lfj90f", "-lfjsrcinfo", "-lelf"]

/-- C5: for a BuildContext with the `shared` variant disabled and version
in `@:1.8.12`, `flag_handler` appends exactly one PIC flag per enabled
language: the C PIC flag once in the `cflags` category, the C++ PIC flag
once in `cxxflags` exactly when the `cxx` variant is enabled, and the
Fortran PIC flag once in `fflags` exactly when the `fortran` variant is
enabled.  (The hypotheses separate the compiler's PIC flags from the fixed
non-PIC flags the handler can also append, so that counting is faithful.) -/
theorem pic_flags_when_static_old :
    ∀ (ctx : BuildContext) (flags : List String),
      satisfiesUpTo ctx.version [1, 8, 12] = true →
      ctx.shared = false →
      ctx.compiler.cc_pic_flag ∉ nonPicLiterals →
      ctx.compiler.fc_pic_flag ∉ nonPicLiterals →
      (cmakeFlagsOf ctx "cflags" flags).count ctx.compiler.cc_pic_flag = 1 ∧
      (cmakeFlagsOf ctx "cxxflags" flags).count ctx.compiler.cxx_pic_flag =
        (if ctx.cxx then 1 else 0) ∧
      (cmakeFlagsOf ctx "fflags" flags).count ctx.compiler.fc_pic_flag =
        (if ctx.fortran then 1 else 0) := by
  intro ctx flags hver hsh hcc hfc
  simp only [nonPicLiterals, List.mem_cons, List.not_mem_nil, or_false,
    not_or] at hcc hfc
  refine ⟨?_, ?_, ?_⟩ <;>
    · simp only [cmakeFlagsOf, flag_handler, hver, hsh]
      split_ifs <;>
        simp_all [List.count_cons, List.count_nil, Option.getD]

/-- C5 witness: a concrete gcc BuildContext at version `1.8.10` with
`shared` disabled and `cxx`, `fortran` enabled gets exactly one `-fPIC`
per language category. -/
theorem pic_flags_when_static_old_witness :
    (cmakeFlagsOf
        { version := ⟨[1, 8, 10]⟩, shared := false, cxx := true,
          fortran := true, mpi := false,
          compiler := { name := "gcc", cc_pic_flag := "-fPIC",
                        cxx_pic_flag := "-fPIC", fc_pic_flag := "-fPIC",
                        fc := some "gfortran" } }
        "cflags" []).count "-fPIC" = 1 := by
  exact (pic_flags_when_static_old
    { version := ⟨[1, 8, 10]⟩, shared := false, cxx := true,
      fortran := true, mpi := false,
      compiler := { name := "gcc", cc_pic_flag := "-fPIC",
                    cxx_pic_flag := "-fPIC", fc_pic_flag := "-fPIC",
                    fc := some "gfortran" } }
    [] (by decide) rfl (by decide) (by decide)).1

/-- C6: for a BuildContext with the `shared` variant enabled,
`flag_handler` appends none of the compiler's PIC flags in any flag
category, regardless of the version.  (The hypotheses separate the PIC
flags from the fixed non-PIC flags the handler can append.) -/
theorem no_pic_flags_when_shared :
    ∀ (ctx : BuildContext) (name : String) (flags : List String),
      ctx.shared = true →
      ctx.compiler.cc_pic_flag ∉ nonPicLiterals →
      ctx.compiler.cxx_pic_flag ∉ nonPicLiterals →
      ctx.compiler.fc_pic_flag ∉ nonPicLiterals →
      ctx.compiler.cc_pic_flag ∉ cmakeFlagsOf ctx name flags ∧
      ctx.compiler.cxx_pic_flag ∉ cmakeFlagsOf ctx name flags ∧
      ctx.compiler.fc_pic_flag ∉ cmakeFlagsOf ctx name flags := by
  intro ctx name flags hsh hcc hcxx hfc
  simp only [nonPicLiterals, List.mem_cons, List.not_mem_nil, or_false,
    not_or] at hcc hcxx hfc
  refine ⟨?_, ?_, ?_⟩ <;>
    · simp only [cmakeFlagsOf, flag_handler, hsh]
      split_ifs <;> simp_all

/-- C6 witness: with `shared` enabled at version `1.8.10`, the `cflags`
category of a gcc build carries no `-fPIC`. -/
theorem no_pic_flags_when_shared_witness :
    "-fPIC" ∉ cmakeFlagsOf
        { version := ⟨[1, 8, 10]⟩, shared := true, cxx := true,
          fortran := true, mpi := false,
          compiler := { name := "gcc", cc_pic_flag := "-fPIC",
                        cxx_pic_flag := "-fPIC", fc_pic_flag := "-fPIC",
                        fc := some "gfortran" } }
        "cflags" [] := by
  exact (no_pic_flags_when_shared
    { version := ⟨[1, 8, 10]⟩, shared := true, cxx := true,
      fortran := true, mpi := false,
      compiler := { name := "gcc", cc_pic_flag := "-fPIC",
                    cxx_pic_flag := "-fPIC", fc_pic_flag := "-fPIC",
                    fc := some "gfortran" } }
    "cflags" [] rfl (by decide) (by decide) (by decide)).1

/-- A concrete build context for version `1.10.7` with gcc, used to
evaluate Install Verification on concrete runs. -/
def ctx1107 : BuildContext :=
  { version := ⟨[1, 10, 7]⟩, shared := true, cxx := false, fortran := false,
    mpi := false,
    compiler := { name := "gcc", cc_pic_flag := "-fPIC",
                  cxx_pic_flag := "-fPIC", fc_pic_flag := "-fPIC",
                  fc := some "gfortran" } }

/-- A run of Install Verification in which compile and link succeed but
the probe prints the empty string, so the output mismatches. -/
def envMismatch : CheckEnv :=
  { ctx := ctx1107, compileOk := true, linkOk := true, runOutput := some "" }

/-- C1 counterexample: on the mismatch exit path (the one the claim
explicitly includes), `_check_install` raises
`RuntimeError("HDF5 install check failed")` from inside the
`with working_dir` block, so the trailing `shutil.rmtree(checkdir)` never
runs and the `spack-check` directory is left behind — refuting the claim
that the directory is removed on every exit path. -/
theorem check_install_cleanup_counterexample :
    (_check_install envMismatch).result =
      Except.error (CheckError.runtimeError "HDF5 install check failed") ∧
    (_check_install envMismatch).checkdirExists = true := by
  exact ⟨rfl, rfl⟩

/-- C1 amended: Install Verification removes the `spack-check` directory
exactly on the success path; on every failing exit path (compile failure,
link failure, or output mismatch, which execution failure also leads to),
the exception escapes before the removal and the directory remains. -/
theorem check_install_cleanup_iff_success :
    ∀ env : CheckEnv,
      (_check_install env).checkdirExists = false ↔
        (_check_install env).result = Except.ok () := by
  intro env
  simp only [_check_install]
  split_ifs <;> simp

/-- C2: with compile and link succeeded and output `out` captured, the
check compares `out` byte-for-byte with the expected string (which carries
the normalized trailing newline): when they are equal it returns without
raising, and when they differ it prints both the expected and the produced
output and raises `RuntimeError("HDF5 install check failed")`. -/
theorem check_install_comparison_spec :
    ∀ (env : CheckEnv) (out : String),
      env.compileOk = true → env.linkOk = true → env.runOutput = some out →
      (out = expectedOutput env.ctx.version →
        (_check_install env).result = Except.ok ()) ∧
      (out ≠ expectedOutput env.ctx.version →
        (_check_install env).result =
          Except.error (CheckError.runtimeError "HDF5 install check failed") ∧
        expectedOutput env.ctx.version ∈ (_check_install env).printed ∧
        out ∈ (_check_install env).printed) := by
  intro env out hc hl hrun
  unfold _check_install
  simp only [hc, hl, hrun]
  constructor
  · intro heq
    simp [heq]
  · intro hne
    simp [Option.getD, hne]

/-- A run of Install Verification in which the probe prints exactly the
expected string for version `1.10.7`. -/
def envMatch : CheckEnv :=
  { ctx := ctx1107, compileOk := true, linkOk := true,
    runOutput := some "HDF5 version 1.10.7 1.10.7\n" }

/-- C2 witness: on the matching run for version `1.10.7` the check
succeeds without raising. -/
theorem check_install_comparison_spec_witness :
    (_check_install envMatch).result = Except.ok () := by
  exact (check_install_comparison_spec envMatch "HDF5 version 1.10.7 1.10.7\n"
    rfl rfl rfl).1 (by decide)

/-- C3: when execution of the compiled probe fails (`ProcessError`), the
captured output is treated as the empty string: the whole observable
outcome equals that of a run that captured `""`, and the execution error
itself never escapes — the failure decision is left to the output
comparison. -/
theorem check_install_run_failure_spec :
    ∀ env : CheckEnv,
      env.compileOk = true → env.linkOk = true → env.runOutput = none →
      _check_install env = _check_install { env with runOutput := some "" } ∧
      (_check_install env).result ≠ Except.error CheckError.processError := by
  intro env hc hl hrun
  constructor
  · unfold _check_install
    simp [hc, hl, hrun]
  · simp only [_check_install, hc, hl, hrun]
    split_ifs <;> simp_all

/-- A run of Install Verification in which the probe fails to execute. -/
def envRunFails : CheckEnv :=
  { ctx := ctx1107, compileOk := true, linkOk := true, runOutput := none }

/-- C3 witness: a concrete run whose probe execution fails behaves exactly
like the empty-output run and does not propagate the execution error. -/
theorem check_install_run_failure_spec_witness :
    _check_install envRunFails =
      _check_install { envRunFails with runOutput := some "" } ∧
    (_check_install envRunFails).result ≠
      Except.error CheckError.processError := by
  exact check_install_run_failure_spec envRunFails rfl rfl rfl

/-- C9: every check the Smoke Test Runner sequences (the nine version
checks, the three example checks, followed by the install check) is
invoked with `skip_missing=True`: a check whose executable is absent
yields a skipped outcome and never raises; each check's outcome depends
only on its own executable's presence and behaviour (so one check's skip
or failure cannot change another's); and every check in the sequence is
always invoked — the runner produces all nine version-check outcomes, all
three example outcomes, and then the install check, for every environment. -/
theorem smoke_test_runner_spec :
    (∀ (env : TestEnv) (exe opt exp : String),
      exe ∉ env.installedExes → run_test env exe opt exp = TestOutcome.skipped) ∧
    (∀ (env env' : TestEnv) (opt opt' exp exp' exe : String),
      (exe ∈ env.installedExes ↔ exe ∈ env'.installedExes) →
      env.checkPasses exe = env'.checkPasses exe →
      run_test env exe opt exp = run_test env' exe opt' exp') ∧
    (∀ (env : TestEnv) (v : Version),
      (_test_check_versions env v).length = hdf5TestExes.length) ∧
    (∀ env : TestEnv, (_test_example env).length = 3) ∧
    (∀ (env : TestEnv) (v : Version) (cenv : CheckEnv),
      (Hdf5_test env v cenv).1 = _test_check_versions env v ++ _test_example env ∧
      (Hdf5_test env v cenv).2 = _check_install cenv) := by
  refine ⟨?_, ?_, ?_, ?_, ?_⟩
  · intro env exe opt exp habs
    simp [run_test, habs]
  · intro env env' opt opt' exp exp' exe hmem hpass
    simp only [run_test, hpass]
    by_cases h : exe ∈ env.installedExes
    · simp [h, hmem.mp h]
    · have h' : exe ∉ env'.installedExes := fun hx => h (hmem.mpr hx)
      simp [h, h']
  · intro env v
    simp [_test_check_versions]
  · intro env
    simp [_test_example]
  · intro env v cenv
    exact ⟨rfl, rfl⟩

/-- A smoke-test environment in which only `h5dump` is installed and every
present check passes. -/
def envOnlyDump : TestEnv :=
  { installedExes := ["h5dump"], checkPasses := fun _ => true }

/-- C9 witness: in an installation carrying only `h5dump`, the `h5copy`
version check is skipped, and all nine version checks are still produced. -/
theorem smoke_test_runner_spec_witness :
    run_test envOnlyDump "h5copy" "--version" "Version 1.10.7" =
      TestOutcome.skipped ∧
    (_test_check_versions envOnlyDump ⟨[1, 10, 7]⟩).length =
      hdf5TestExes.length := by
  exact ⟨smoke_test_runner_spec.1 envOnlyDump "h5copy" "--version"
      "Version 1.10.7" (by decide),
    smoke_test_runner_spec.2.2.1 envOnlyDump ⟨[1, 10, 7]⟩⟩

end Registry
